import Mathlib

/-!
Eye analyzer of the facial-feature extractor.

Shallow embedding of `src/features/eye/eye_analyzer.cc` and of the constants of
`src/features/generic_analyzer.h`.

Modelling conventions.

* `double` and `float` values are elements of an arbitrary linearly ordered
  field `D`: arithmetic is exact.  Rounding, overflow, infinities and NaN are
  outside the model.  The quotient by the stored normalization factor is the
  field's quotient.  For a nonzero factor it is the quotient the code computes;
  for the factor zero the code stores an infinity or NaN, which `D` does not
  have, so the value the model stores there carries no meaning: a statement
  about a stored quotient describes the code for nonzero factors only.
* `int` values are `Int`; image dimensions are far from the 32-bit range.
* `landmarks_.landmark(i)` and `TABLE[i]` are partial: an index outside the
  container has no defined result in C++, and is `none` here.  A member function
  that performs such a lookup returns `Option`.
* `eye_analyzer.h` and `generic_analyzer.cc` are not available.  The index
  tables declared in the former are the fields of `EyeTables`; the helpers
  defined in the latter, and `cv::contourArea`, are the fields of `Helpers`.
-/

namespace ReadMinds

/-! ## Data model -/

/-- The constant `NTOTAL_LANDMARKS` of `generic_analyzer.h`. -/
def NTOTAL_LANDMARKS : Int := 468

/-- The table `ANCHOR_LANDMARKS` of `generic_analyzer.h`. -/
def ANCHOR_LANDMARKS : List Int := [1, 4, 5, 195, 197, 6]

/-- The message `mediapipe::NormalizedLandmark`: three coordinates. -/
structure NormalizedLandmark (D : Type) where
  x : D
  y : D
  z : D

/-- The type `cv::Point`: a point of the integer pixel grid. -/
structure Point where
  x : Int
  y : Int
deriving DecidableEq, Repr

/-- The lookup `landmarks_.landmark(i)`, with an `int` index. -/
def landmark {α : Type} (landmarks : List α) (i : Int) : Option α :=
  if i < 0 then none else landmarks[i.toNat]?

/-- The index tables that `eye_analyzer.cc` reads; they are declared in
`eye_analyzer.h`, so their entries are parameters here. -/
structure EyeTables where
  EYE_RIGHT_INNER_LMARKS : List Int
  EYE_LEFT_INNER_LMARKS : List Int
  EYE_BROW_RIGHT_UPPER : List Int
  EYE_BROW_LEFT_UPPER : List Int

/-- The functions that `eye_analyzer.cc` calls and that are defined elsewhere:
`GenericAnalyzer::EuclideanDistance(double, double, double, double)`,
`GenericAnalyzer::CvtNormIntoCvPoint` (which reads `img_width_` and
`img_height_`, passed here as the first two arguments) and `cv::contourArea`. -/
structure Helpers (D : Type) where
  EuclideanDistance : D → D → D → D → D
  CvtNormIntoCvPoint : Int → Int → NormalizedLandmark D → Point
  contourArea : List Point → D

/-- The data members of an `EyeAnalyzer` object: those inherited from
`GenericAnalyzer` and the four that `eye_analyzer.cc` uses. -/
structure EyeAnalyzer (D : Type) where
  norm_factor_ : D
  landmarks_ : List (NormalizedLandmark D)
  img_width_ : Int
  img_height_ : Int
  eye_area_ : D
  eyebrow_anchor_dist_sum_ : D
  eye_right_contour_ : List Point
  eye_left_contour_ : List Point

/-- The loop `for (int i = i0; i < i0 + n; i++) body`, with a body that may fail. -/
def forRange {σ : Type} (body : Nat → σ → Option σ) : Nat → Nat → σ → Option σ
  | 0, _, s => some s
  | n + 1, i, s =>
    match body i s with
    | none => none
    | some s1 => forRange body n (i + 1) s1

section Code

variable {D : Type} [LinearOrderedField D]

/-! ## The member functions of `eye_analyzer.cc` -/

/-- The constructor `EyeAnalyzer::EyeAnalyzer(int, int)`, which only delegates
to `GenericAnalyzer(img_width, img_height)`; that constructor "sets image pixel
dimensions" (its body is in `generic_analyzer.cc`).  The landmark list and the
contour vectors are default-constructed, hence empty.  No constructor in
`eye_analyzer.cc` writes `norm_factor_`, `eye_area_` or
`eyebrow_anchor_dist_sum_`: what they hold at construction is given by the
arguments `nf0`, `area0` and `brow0`. -/
def EyeAnalyzer.construct (img_width img_height : Int) (nf0 area0 brow0 : D) :
    EyeAnalyzer D :=
  { norm_factor_ := nf0
    landmarks_ := []
    img_width_ := img_width
    img_height_ := img_height
    eye_area_ := area0
    eyebrow_anchor_dist_sum_ := brow0
    eye_right_contour_ := []
    eye_left_contour_ := [] }

/-- The accessor `EyeAnalyzer::GetEyeInnerArea`. -/
def GetEyeInnerArea (s : EyeAnalyzer D) : D :=
  s.eye_area_

/-- The accessor `EyeAnalyzer::GetEyebrow`. -/
def GetEyebrow (s : EyeAnalyzer D) : D :=
  s.eyebrow_anchor_dist_sum_

/-- One iteration of the loop of `EyeAnalyzer::GenerateEyeContours`. -/
def GenerateEyeContours.body (T : EyeTables) (H : Helpers D) (i : Nat)
    (s : EyeAnalyzer D) : Option (EyeAnalyzer D) :=
  match T.EYE_RIGHT_INNER_LMARKS[i]? with
  | none => none
  | some eye_right_lmark =>
    match landmark s.landmarks_ eye_right_lmark with
    | none => none
    | some lmR =>
      let s1 := { s with eye_right_contour_ :=
        s.eye_right_contour_ ++ [H.CvtNormIntoCvPoint s.img_width_ s.img_height_ lmR] }
      match T.EYE_LEFT_INNER_LMARKS[i]? with
      | none => none
      | some eye_left_lmark =>
        match landmark s1.landmarks_ eye_left_lmark with
        | none => none
        | some lmL =>
          some { s1 with eye_left_contour_ :=
            s1.eye_left_contour_ ++ [H.CvtNormIntoCvPoint s1.img_width_ s1.img_height_ lmL] }

/-- The function `EyeAnalyzer::GenerateEyeContours`: `lmarks_amount` is the
number of entries of `EYE_RIGHT_INNER_LMARKS`, and bounds the index into both
tables. -/
def GenerateEyeContours (T : EyeTables) (H : Helpers D) (s : EyeAnalyzer D) :
    Option (EyeAnalyzer D) :=
  let lmarks_amount := T.EYE_RIGHT_INNER_LMARKS.length
  forRange (GenerateEyeContours.body T H) lmarks_amount 0 s

/-- The function `EyeAnalyzer::CalculateEyesContoursArea`: the returned value
and the object afterwards. -/
def CalculateEyesContoursArea (T : EyeTables) (H : Helpers D) (s : EyeAnalyzer D) :
    Option (D × EyeAnalyzer D) :=
  match GenerateEyeContours T H s with
  | none => none
  | some s1 =>
    let right_eye_area := H.contourArea s1.eye_right_contour_
    let left_eye_area := H.contourArea s1.eye_left_contour_
    let s2 := { s1 with eye_area_ := right_eye_area + left_eye_area }
    let s3 := { s2 with eye_right_contour_ := [] }
    let s4 := { s3 with eye_left_contour_ := [] }
    some (s4.eye_area_, s4)

/-- An inner loop of `EyeAnalyzer::CalculateEyebrowActivity`: `for (int i : TABLE)`
adding to `distances_sum` the distance from the anchor to landmark `i`. -/
def CalculateEyebrowActivity.browLoop (H : Helpers D) (s : EyeAnalyzer D)
    (anchor_x anchor_y : D) : List Int → D → Option D
  | [], distances_sum => some distances_sum
  | i :: rest, distances_sum =>
    match landmark s.landmarks_ i with
    | none => none
    | some lm =>
      let x := lm.x * (s.img_width_ : D)
      let y := lm.y * (s.img_height_ : D)
      CalculateEyebrowActivity.browLoop H s anchor_x anchor_y rest
        (distances_sum + H.EuclideanDistance anchor_x anchor_y x y)

/-- The outer loop of `EyeAnalyzer::CalculateEyebrowActivity`: `for (int a : ...)`. -/
def CalculateEyebrowActivity.anchorLoop (T : EyeTables) (H : Helpers D)
    (s : EyeAnalyzer D) : List Int → D → Option D
  | [], distances_sum => some distances_sum
  | a :: rest, distances_sum =>
    match landmark s.landmarks_ a with
    | none => none
    | some anchor_landmark =>
      let anchor_x := anchor_landmark.x * (s.img_width_ : D)
      let anchor_y := anchor_landmark.y * (s.img_height_ : D)
      match CalculateEyebrowActivity.browLoop H s anchor_x anchor_y
          T.EYE_BROW_RIGHT_UPPER distances_sum with
      | none => none
      | some sum1 =>
        match CalculateEyebrowActivity.browLoop H s anchor_x anchor_y
            T.EYE_BROW_LEFT_UPPER sum1 with
        | none => none
        | some sum2 => CalculateEyebrowActivity.anchorLoop T H s rest sum2

/-- The function `EyeAnalyzer::CalculateEyebrowActivity`: the returned value and
the object afterwards.  The stored quotient is that of the code when
`norm_factor_` is not zero; for `norm_factor_ = 0` the code stores an infinity
or NaN, which `D` cannot represent. -/
def CalculateEyebrowActivity (T : EyeTables) (H : Helpers D) (s : EyeAnalyzer D) :
    Option (D × EyeAnalyzer D) :=
  match CalculateEyebrowActivity.anchorLoop T H s ANCHOR_LANDMARKS 0 with
  | none => none
  | some distances_sum =>
    let s1 := { s with eyebrow_anchor_dist_sum_ := distances_sum / s.norm_factor_ }
    some (s1.eyebrow_anchor_dist_sum_, s1)

/-- The function `EyeAnalyzer::Update`. -/
def Update (T : EyeTables) (H : Helpers D) (s : EyeAnalyzer D) :
    Option (EyeAnalyzer D) :=
  match CalculateEyebrowActivity T H s with
  | none => none
  | some (_, s1) =>
    match CalculateEyesContoursArea T H s1 with
    | none => none
    | some (_, s2) => some s2

end Code

/-! ## Index tables -/

/-- Every entry of `table` is an index into a list of `n` landmarks. -/
def InRange (n : Int) (table : List Int) : Prop :=
  ∀ i ∈ table, 0 ≤ i ∧ i < n

instance (n : Int) (table : List Int) : Decidable (InRange n table) :=
  inferInstanceAs (Decidable (∀ i ∈ table, 0 ≤ i ∧ i < n))

/-- The tables of `eye_analyzer.h` are well formed: every entry is a landmark
index below `NTOTAL_LANDMARKS`, and the two inner-eye tables, which
`GenerateEyeContours` walks with one index, have the same number of entries. -/
def EyeTables.Valid (T : EyeTables) : Prop :=
  InRange NTOTAL_LANDMARKS T.EYE_RIGHT_INNER_LMARKS ∧
  InRange NTOTAL_LANDMARKS T.EYE_LEFT_INNER_LMARKS ∧
  InRange NTOTAL_LANDMARKS T.EYE_BROW_RIGHT_UPPER ∧
  InRange NTOTAL_LANDMARKS T.EYE_BROW_LEFT_UPPER ∧
  T.EYE_LEFT_INNER_LMARKS.length = T.EYE_RIGHT_INNER_LMARKS.length

instance (T : EyeTables) : Decidable T.Valid :=
  inferInstanceAs (Decidable (_ ∧ _ ∧ _ ∧ _ ∧ _))

/-! ## What the metrics are said to be -/

/-- The landmarks that a table selects, in table order; `none` when an entry is
not an index of the landmark list. -/
def landmarksAt {α : Type} (landmarks : List α) : List Int → Option (List α)
  | [] => some []
  | i :: rest =>
    match landmark landmarks i, landmarksAt landmarks rest with
    | some a, some as => some (a :: as)
    | _, _ => none

/-- The sum, over every anchor and every eyebrow landmark, of the distance
between the two points taken to pixel space by multiplying with the width and
the height. -/
def distanceSum {D : Type} [LinearOrderedField D] (dist : D → D → D → D → D)
    (width height : Int) (anchors brows : List (NormalizedLandmark D)) : D :=
  (anchors.map fun a =>
    (brows.map fun l =>
      dist (a.x * (width : D)) (a.y * (height : D))
        (l.x * (width : D)) (l.y * (height : D))).sum).sum

/-- Modelled from the spec: `distance(p1, p2)`, the body of
`GenericAnalyzer::EuclideanDistance` (in `generic_analyzer.cc`, which is not
available), is the standard 2D Euclidean distance: the non-negative number whose
square is the sum of the squared coordinate differences. -/
def IsEuclideanDistance {D : Type} [LinearOrderedField D] (dist : D → D → D → D → D) :
    Prop :=
  ∀ x1 y1 x2 y2 : D,
    0 ≤ dist x1 y1 x2 y2 ∧ dist x1 y1 x2 y2 ^ 2 = (x1 - x2) ^ 2 + (y1 - y2) ^ 2

/-- Conversion of a `double` to `int`: the fractional part is dropped. -/
def truncate {D : Type} [LinearOrderedField D] [FloorRing D] (v : D) : Int :=
  if 0 ≤ v then Int.floor v else Int.ceil v

/-- Modelled from the spec: `toPixel(landmark, width, height)`, the body of
`GenericAnalyzer::CvtNormIntoCvPoint` (in `generic_analyzer.cc`, which is not
available): multiplies the normalized x, y by width, height respectively,
truncates to the integer pixel grid, and drops z. -/
def toPixel {D : Type} [LinearOrderedField D] [FloorRing D] (width height : Int)
    (lm : NormalizedLandmark D) : Point :=
  { x := truncate (lm.x * (width : D)), y := truncate (lm.y * (height : D)) }

/-- The accumulation loop of the shoelace formula: `prev` is the point before
the next one of the list, `a00` the running sum. -/
def shoelaceLoop : Point → List Point → Int → Int
  | _, [], a00 => a00
  | prev, p :: rest, a00 => shoelaceLoop p rest (a00 + (prev.x * p.y - prev.y * p.x))

/-- Twice the signed area of the closed polygon through the points: the
accumulation starts with the last point as predecessor of the first. -/
def shoelace (pts : List Point) : Int :=
  match pts.getLast? with
  | none => 0
  | some last => shoelaceLoop last pts 0

/-- Modelled from the spec: `polygonArea(orderedPoints)`, which the code obtains
from `cv::contourArea` (OpenCV, outside the repository): the non-negative area of
the closed polygon defined by the point sequence, via the shoelace accumulation,
that is the absolute value of half the accumulated sum. -/
def polygonArea {D : Type} [LinearOrderedField D] (pts : List Point) : D :=
  |((shoelace pts : Int) : D) / 2|

/-- All points of the sequence lie on one line `a * x + b * y = c`. -/
def Collinear (pts : List Point) : Prop :=
  ∃ a b c : Int, (a ≠ 0 ∨ b ≠ 0) ∧ ∀ p ∈ pts, a * p.x + b * p.y = c

/-- Modelled from the spec: `computeNormalizationFactor`, the body of
`GenericAnalyzer::CalculateNormFactor` (declared in `generic_analyzer.h`, defined
in `generic_analyzer.cc`, which is not available).  The factor is a "deterministic,
order-independent accumulation of pixel-space distances among a fixed landmark
subset": for each pair formed by an anchor of the anchor-landmark table and a
landmark of the table `targets`, both landmarks are converted to pixel space via
`toPixel` and the distance between the two pixel points is accumulated.  With
`targets` the anchor table itself this is the all-pairs reading, with `targets`
the two eyebrow tables the reading "for each anchor, sum distances to two fixed
eyebrow-landmark groups".  The call fails when the resulting factor is at most a
small positive `eps`. -/
def CalculateNormFactor {D : Type} [LinearOrderedField D] [FloorRing D]
    (dist : D → D → D → D → D) (eps : D) (targets : List Int)
    (landmarks : List (NormalizedLandmark D)) (width height : Int) : Option D :=
  match landmarksAt landmarks ANCHOR_LANDMARKS, landmarksAt landmarks targets with
  | some anchors, some others =>
    let factor := ((anchors.map (toPixel width height)).map fun p =>
      ((others.map (toPixel width height)).map fun q =>
        dist (p.x : D) (p.y : D) (q.x : D) (q.y : D)).sum).sum
    if factor ≤ eps then none else some factor
  | _, _ => none

/-- The helpers with the bodies the spec gives them, for a distance function
`dist`. -/
def Helpers.ofDistance {D : Type} [LinearOrderedField D] [FloorRing D]
    (dist : D → D → D → D → D) : Helpers D :=
  { EuclideanDistance := dist
    CvtNormIntoCvPoint := toPixel
    contourArea := polygonArea }

/-! ## Sequences of calls -/

/-- The two entry points that build the eye contours. -/
inductive Call where
  | update
  | calculateEyesContoursArea
deriving DecidableEq, Repr

/-- The object after one call. -/
def Call.run {D : Type} [LinearOrderedField D] (T : EyeTables) (H : Helpers D) :
    Call → EyeAnalyzer D → Option (EyeAnalyzer D)
  | Call.update, s => Update T H s
  | Call.calculateEyesContoursArea, s =>
    match CalculateEyesContoursArea T H s with
    | none => none
    | some (_, s1) => some s1

/-- The object after a sequence of calls, first call first. -/
def runCalls {D : Type} [LinearOrderedField D] (T : EyeTables) (H : Helpers D) :
    List Call → EyeAnalyzer D → Option (EyeAnalyzer D)
  | [], s => some s
  | c :: rest, s =>
    match c.run T H s with
    | none => none
    | some s1 => runCalls T H rest s1

/-! ## Sample data -/

/-- A set of index tables on which the theorems are instantiated: sixteen
points around each eye and eight along each eyebrow. -/
def sampleTables : EyeTables :=
  { EYE_RIGHT_INNER_LMARKS :=
      [33, 7, 163, 144, 145, 153, 154, 155, 133, 173, 157, 158, 159, 160, 161, 246]
    EYE_LEFT_INNER_LMARKS :=
      [263, 249, 390, 373, 374, 380, 381, 382, 362, 398, 384, 385, 386, 387, 388, 466]
    EYE_BROW_RIGHT_UPPER := [156, 70, 63, 105, 66, 107, 55, 193]
    EYE_BROW_LEFT_UPPER := [383, 300, 293, 334, 296, 336, 285, 417] }

/-- The landmark of index `i` in `sampleLandmarks`: landmark 1 at the right
border of the image, the other anchors at mid-width, the rest at the left
border, all on the top row. -/
def sampleLandmark (D : Type) [LinearOrderedField D] (i : Nat) : NormalizedLandmark D :=
  if i = 1 then { x := 1, y := 0, z := 0 }
  else if i = 4 ∨ i = 5 ∨ i = 195 ∨ i = 197 ∨ i = 6 then { x := 1 / 2, y := 0, z := 0 }
  else { x := 0, y := 0, z := 0 }

/-- A landmark set of 468 points. -/
def sampleLandmarks (D : Type) [LinearOrderedField D] : List (NormalizedLandmark D) :=
  (List.range 468).map (sampleLandmark D)

/-- An analyzer holding `sampleLandmarks`, with the given dimensions,
normalization factor and cached metrics, and empty contour buffers. -/
def sampleAnalyzer (D : Type) [LinearOrderedField D] (width height : Int)
    (nf area brow : D) : EyeAnalyzer D :=
  { norm_factor_ := nf
    landmarks_ := sampleLandmarks D
    img_width_ := width
    img_height_ := height
    eye_area_ := area
    eyebrow_anchor_dist_sum_ := brow
    eye_right_contour_ := []
    eye_left_contour_ := [] }

/-! ## Lookups -/

theorem landmark_isSome {α : Type} (l : List α) (i : Int) (h0 : 0 ≤ i)
    (h1 : i < l.length) : ∃ a, landmark l i = some a := by
  have hi : i.toNat < l.length := by omega
  refine ⟨l[i.toNat], ?_⟩
  simp [landmark, not_lt.mpr h0, List.getElem?_eq_getElem hi]

theorem landmarksAt_isSome {α : Type} (l : List α) (table : List Int)
    (h : InRange l.length table) :
    ∃ as, landmarksAt l table = some as ∧ as.length = table.length := by
  induction table with
  | nil => exact ⟨[], rfl, rfl⟩
  | cons i rest ih =>
    obtain ⟨a, ha⟩ := landmark_isSome l i (h i (by simp)).1 (h i (by simp)).2
    obtain ⟨as, has, hlen⟩ := ih (fun j hj => h j (by simp [hj]))
    exact ⟨a :: as, by simp [landmarksAt, ha, has], by simp [hlen]⟩

theorem landmarksAt_of_inRange {α : Type} (l : List α) (table : List Int)
    (hlen : (l.length : Int) = NTOTAL_LANDMARKS) (h : InRange NTOTAL_LANDMARKS table) :
    ∃ as, landmarksAt l table = some as ∧ as.length = table.length :=
  landmarksAt_isSome l table (hlen ▸ h)

theorem landmarksAt_anchors {α : Type} (l : List α)
    (hlen : (l.length : Int) = NTOTAL_LANDMARKS) :
    ∃ as, landmarksAt l ANCHOR_LANDMARKS = some as ∧ as.length = ANCHOR_LANDMARKS.length :=
  landmarksAt_of_inRange l ANCHOR_LANDMARKS hlen (by unfold NTOTAL_LANDMARKS; decide)

theorem landmarksAt_cons_some {α : Type} {l : List α} {i : Int} {rest : List Int}
    {bs : List α} (h : landmarksAt l (i :: rest) = some bs) :
    ∃ a as, landmark l i = some a ∧ landmarksAt l rest = some as ∧ bs = a :: as := by
  unfold landmarksAt at h
  cases ha : landmark l i with
  | none => simp [ha] at h
  | some a =>
    cases has : landmarksAt l rest with
    | none => simp [ha, has] at h
    | some as =>
      simp only [ha, has, Option.some.injEq] at h
      exact ⟨a, as, rfl, rfl, h.symm⟩

/-! ## The eyebrow loops -/

section Eyebrow

variable {D : Type} [LinearOrderedField D]

theorem browLoop_eq (H : Helpers D) (s : EyeAnalyzer D) (ax ay : D) :
    ∀ (table : List Int) (bs : List (NormalizedLandmark D)) (acc : D),
      landmarksAt s.landmarks_ table = some bs →
      CalculateEyebrowActivity.browLoop H s ax ay table acc =
        some (acc + (bs.map fun l => H.EuclideanDistance ax ay
          (l.x * (s.img_width_ : D)) (l.y * (s.img_height_ : D))).sum) := by
  intro table
  induction table with
  | nil =>
    intro bs acc h
    simp only [landmarksAt, Option.some.injEq] at h
    subst h
    simp [CalculateEyebrowActivity.browLoop]
  | cons i rest ih =>
    intro bs acc h
    obtain ⟨a, as, ha, has, rfl⟩ := landmarksAt_cons_some h
    simp only [CalculateEyebrowActivity.browLoop, ha, ih as _ has, List.map_cons,
      List.sum_cons, add_assoc]

theorem anchorLoop_eq (T : EyeTables) (H : Helpers D) (s : EyeAnalyzer D)
    (rs ls : List (NormalizedLandmark D))
    (hr : landmarksAt s.landmarks_ T.EYE_BROW_RIGHT_UPPER = some rs)
    (hl : landmarksAt s.landmarks_ T.EYE_BROW_LEFT_UPPER = some ls) :
    ∀ (table : List Int) (anchors : List (NormalizedLandmark D)) (acc : D),
      landmarksAt s.landmarks_ table = some anchors →
      CalculateEyebrowActivity.anchorLoop T H s table acc =
        some (acc + distanceSum H.EuclideanDistance s.img_width_ s.img_height_
          anchors (rs ++ ls)) := by
  intro table
  induction table with
  | nil =>
    intro anchors acc h
    simp only [landmarksAt, Option.some.injEq] at h
    subst h
    simp [CalculateEyebrowActivity.anchorLoop, distanceSum]
  | cons a rest ih =>
    intro anchors acc h
    obtain ⟨p, ps, hp, hps, rfl⟩ := landmarksAt_cons_some h
    simp only [CalculateEyebrowActivity.anchorLoop, hp, browLoop_eq H s _ _ _ rs _ hr,
      browLoop_eq H s _ _ _ ls _ hl, ih ps _ hps]
    simp only [distanceSum, List.map_cons, List.sum_cons, List.map_append, List.sum_append,
      add_assoc]

theorem CalculateEyebrowActivity_eq (T : EyeTables) (H : Helpers D) (s : EyeAnalyzer D)
    (anchors rs ls : List (NormalizedLandmark D))
    (ha : landmarksAt s.landmarks_ ANCHOR_LANDMARKS = some anchors)
    (hr : landmarksAt s.landmarks_ T.EYE_BROW_RIGHT_UPPER = some rs)
    (hl : landmarksAt s.landmarks_ T.EYE_BROW_LEFT_UPPER = some ls) :
    CalculateEyebrowActivity T H s =
      some (distanceSum H.EuclideanDistance s.img_width_ s.img_height_ anchors (rs ++ ls)
              / s.norm_factor_,
            { s with eyebrow_anchor_dist_sum_ :=
                distanceSum H.EuclideanDistance s.img_width_ s.img_height_ anchors (rs ++ ls)
                  / s.norm_factor_ }) := by
  simp only [CalculateEyebrowActivity, anchorLoop_eq T H s rs ls hr hl _ _ _ ha, zero_add]

end Eyebrow

/-! ## The contour loop -/

section Contours

variable {D : Type}

theorem drop_cons_of_length {α : Type} (l : List α) (i n : Nat)
    (h : (l.drop i).length = n + 1) :
    ∃ a, l[i]? = some a ∧ l.drop i = a :: l.drop (i + 1) := by
  have hi : i < l.length := by
    rw [List.length_drop] at h; omega
  exact ⟨l[i], List.getElem?_eq_getElem hi, List.drop_eq_getElem_cons hi⟩

theorem GenerateEyeContours_loop (T : EyeTables) (H : Helpers D) :
    ∀ (n i : Nat) (s : EyeAnalyzer D) (rs ls : List (NormalizedLandmark D)),
      landmarksAt s.landmarks_ (T.EYE_RIGHT_INNER_LMARKS.drop i) = some rs →
      landmarksAt s.landmarks_ (T.EYE_LEFT_INNER_LMARKS.drop i) = some ls →
      (T.EYE_RIGHT_INNER_LMARKS.drop i).length = n →
      (T.EYE_LEFT_INNER_LMARKS.drop i).length = n →
      forRange (GenerateEyeContours.body T H) n i s =
        some { s with
          eye_right_contour_ := s.eye_right_contour_ ++
            rs.map (H.CvtNormIntoCvPoint s.img_width_ s.img_height_)
          eye_left_contour_ := s.eye_left_contour_ ++
            ls.map (H.CvtNormIntoCvPoint s.img_width_ s.img_height_) } := by
  intro n
  induction n with
  | zero =>
    intro i s rs ls hr hl hnr hnl
    rw [List.length_eq_zero.mp hnr] at hr
    rw [List.length_eq_zero.mp hnl] at hl
    simp only [landmarksAt, Option.some.injEq] at hr hl
    subst hr; subst hl
    simp [forRange]
  | succ n ih =>
    intro i s rs ls hr hl hnr hnl
    obtain ⟨r, hri, hrd⟩ := drop_cons_of_length _ i n hnr
    obtain ⟨l, hli, hld⟩ := drop_cons_of_length _ i n hnl
    rw [hrd] at hr hnr
    rw [hld] at hl hnl
    obtain ⟨pr, prs, hpr, hprs, rfl⟩ := landmarksAt_cons_some hr
    obtain ⟨pl, pls, hpl, hpls, rfl⟩ := landmarksAt_cons_some hl
    have hbody : GenerateEyeContours.body T H i s =
        some { s with
          eye_right_contour_ := s.eye_right_contour_ ++
            [H.CvtNormIntoCvPoint s.img_width_ s.img_height_ pr]
          eye_left_contour_ := s.eye_left_contour_ ++
            [H.CvtNormIntoCvPoint s.img_width_ s.img_height_ pl] } := by
      simp only [GenerateEyeContours.body, hri, hpr, hli, hpl]
    simp only [forRange, hbody]
    have hrest := ih (i + 1)
      { s with
        eye_right_contour_ := s.eye_right_contour_ ++
          [H.CvtNormIntoCvPoint s.img_width_ s.img_height_ pr]
        eye_left_contour_ := s.eye_left_contour_ ++
          [H.CvtNormIntoCvPoint s.img_width_ s.img_height_ pl] }
      prs pls hprs hpls (by simpa using hnr) (by simpa using hnl)
    rw [hrest]
    simp

theorem GenerateEyeContours_eq (T : EyeTables) (H : Helpers D) (s : EyeAnalyzer D)
    (rs ls : List (NormalizedLandmark D))
    (hr : landmarksAt s.landmarks_ T.EYE_RIGHT_INNER_LMARKS = some rs)
    (hl : landmarksAt s.landmarks_ T.EYE_LEFT_INNER_LMARKS = some ls)
    (hlen : T.EYE_LEFT_INNER_LMARKS.length = T.EYE_RIGHT_INNER_LMARKS.length) :
    GenerateEyeContours T H s =
      some { s with
        eye_right_contour_ := s.eye_right_contour_ ++
          rs.map (H.CvtNormIntoCvPoint s.img_width_ s.img_height_)
        eye_left_contour_ := s.eye_left_contour_ ++
          ls.map (H.CvtNormIntoCvPoint s.img_width_ s.img_height_) } := by
  unfold GenerateEyeContours
  exact GenerateEyeContours_loop T H _ 0 s rs ls (by simpa using hr) (by simpa using hl)
    (by simp) (by simp [hlen])

theorem CalculateEyesContoursArea_eq [LinearOrderedField D] (T : EyeTables) (H : Helpers D)
    (s : EyeAnalyzer D)
    (rs ls : List (NormalizedLandmark D))
    (hr : landmarksAt s.landmarks_ T.EYE_RIGHT_INNER_LMARKS = some rs)
    (hl : landmarksAt s.landmarks_ T.EYE_LEFT_INNER_LMARKS = some ls)
    (hlen : T.EYE_LEFT_INNER_LMARKS.length = T.EYE_RIGHT_INNER_LMARKS.length) :
    CalculateEyesContoursArea T H s =
      some (H.contourArea (s.eye_right_contour_ ++
                rs.map (H.CvtNormIntoCvPoint s.img_width_ s.img_height_)) +
              H.contourArea (s.eye_left_contour_ ++
                ls.map (H.CvtNormIntoCvPoint s.img_width_ s.img_height_)),
            { s with
              eye_area_ :=
                H.contourArea (s.eye_right_contour_ ++
                    rs.map (H.CvtNormIntoCvPoint s.img_width_ s.img_height_)) +
                  H.contourArea (s.eye_left_contour_ ++
                    ls.map (H.CvtNormIntoCvPoint s.img_width_ s.img_height_))
              eye_right_contour_ := []
              eye_left_contour_ := [] }) := by
  simp only [CalculateEyesContoursArea, GenerateEyeContours_eq T H s rs ls hr hl hlen]

end Contours

/-! ## The recomputation step -/

section Recompute

variable {D : Type} [LinearOrderedField D]

theorem inRange_of_valid {α : Type} (T : EyeTables) (l : List α)
    (hlen : (l.length : Int) = NTOTAL_LANDMARKS) (hT : T.Valid) :
    InRange l.length ANCHOR_LANDMARKS ∧
    InRange l.length T.EYE_RIGHT_INNER_LMARKS ∧
    InRange l.length T.EYE_LEFT_INNER_LMARKS ∧
    InRange l.length T.EYE_BROW_RIGHT_UPPER ∧
    InRange l.length T.EYE_BROW_LEFT_UPPER := by
  obtain ⟨h1, h2, h3, h4, _⟩ := hT
  rw [hlen]
  exact ⟨by unfold NTOTAL_LANDMARKS; decide, h1, h2, h3, h4⟩

theorem Update_eq (T : EyeTables) (H : Helpers D) (s : EyeAnalyzer D)
    (anchors rs ls ers els : List (NormalizedLandmark D))
    (ha : landmarksAt s.landmarks_ ANCHOR_LANDMARKS = some anchors)
    (hr : landmarksAt s.landmarks_ T.EYE_BROW_RIGHT_UPPER = some rs)
    (hl : landmarksAt s.landmarks_ T.EYE_BROW_LEFT_UPPER = some ls)
    (her : landmarksAt s.landmarks_ T.EYE_RIGHT_INNER_LMARKS = some ers)
    (hel : landmarksAt s.landmarks_ T.EYE_LEFT_INNER_LMARKS = some els)
    (hlen : T.EYE_LEFT_INNER_LMARKS.length = T.EYE_RIGHT_INNER_LMARKS.length) :
    Update T H s =
      some { s with
        eyebrow_anchor_dist_sum_ :=
          distanceSum H.EuclideanDistance s.img_width_ s.img_height_ anchors (rs ++ ls)
            / s.norm_factor_
        eye_area_ :=
          H.contourArea (s.eye_right_contour_ ++
              ers.map (H.CvtNormIntoCvPoint s.img_width_ s.img_height_)) +
            H.contourArea (s.eye_left_contour_ ++
              els.map (H.CvtNormIntoCvPoint s.img_width_ s.img_height_))
        eye_right_contour_ := []
        eye_left_contour_ := [] } := by
  simp only [Update, CalculateEyebrowActivity_eq T H s anchors rs ls ha hr hl]
  have h2 := CalculateEyesContoursArea_eq T H
    { s with eyebrow_anchor_dist_sum_ :=
        distanceSum H.EuclideanDistance s.img_width_ s.img_height_ anchors (rs ++ ls)
          / s.norm_factor_ }
    ers els her hel hlen
  rw [h2]

theorem Update_total (T : EyeTables) (H : Helpers D) (s : EyeAnalyzer D)
    (hlen : (s.landmarks_.length : Int) = NTOTAL_LANDMARKS) (hT : T.Valid) :
    ∃ anchors rs ls ers els,
      landmarksAt s.landmarks_ ANCHOR_LANDMARKS = some anchors ∧
      landmarksAt s.landmarks_ T.EYE_BROW_RIGHT_UPPER = some rs ∧
      landmarksAt s.landmarks_ T.EYE_BROW_LEFT_UPPER = some ls ∧
      landmarksAt s.landmarks_ T.EYE_RIGHT_INNER_LMARKS = some ers ∧
      landmarksAt s.landmarks_ T.EYE_LEFT_INNER_LMARKS = some els ∧
      ers.length = T.EYE_RIGHT_INNER_LMARKS.length ∧
      els.length = T.EYE_LEFT_INNER_LMARKS.length ∧
      Update T H s =
        some { s with
          eyebrow_anchor_dist_sum_ :=
            distanceSum H.EuclideanDistance s.img_width_ s.img_height_ anchors (rs ++ ls)
              / s.norm_factor_
          eye_area_ :=
            H.contourArea (s.eye_right_contour_ ++
                ers.map (H.CvtNormIntoCvPoint s.img_width_ s.img_height_)) +
              H.contourArea (s.eye_left_contour_ ++
                els.map (H.CvtNormIntoCvPoint s.img_width_ s.img_height_))
          eye_right_contour_ := []
          eye_left_contour_ := [] } := by
  obtain ⟨i0, i1, i2, i3, i4⟩ := inRange_of_valid T s.landmarks_ hlen hT
  obtain ⟨anchors, ha, _⟩ := landmarksAt_isSome _ _ i0
  obtain ⟨ers, her, hers⟩ := landmarksAt_isSome _ _ i1
  obtain ⟨els, hel, hels⟩ := landmarksAt_isSome _ _ i2
  obtain ⟨rs, hr, _⟩ := landmarksAt_isSome _ _ i3
  obtain ⟨ls, hl, _⟩ := landmarksAt_isSome _ _ i4
  exact ⟨anchors, rs, ls, ers, els, ha, hr, hl, her, hel, hers, hels,
    Update_eq T H s anchors rs ls ers els ha hr hl her hel hT.2.2.2.2⟩

end Recompute

/-! ## Distances and truncation -/

section Distance

variable {D : Type} [LinearOrderedField D]

theorem real_isEuclideanDistance :
    IsEuclideanDistance (fun x1 y1 x2 y2 : ℝ => Real.sqrt ((x1 - x2) ^ 2 + (y1 - y2) ^ 2)) := by
  intro x1 y1 x2 y2
  exact ⟨Real.sqrt_nonneg _, Real.sq_sqrt (by positivity)⟩

theorem IsEuclideanDistance.horizontal {dist : D → D → D → D → D}
    (hd : IsEuclideanDistance dist) (x1 x2 y : D) : dist x1 y x2 y = |x1 - x2| := by
  obtain ⟨h0, h2⟩ := hd x1 y x2 y
  rw [← sq_eq_sq₀ h0 (abs_nonneg _), h2, sq_abs]
  ring

theorem IsEuclideanDistance.scale {dist : D → D → D → D → D}
    (hd : IsEuclideanDistance dist) (k : D) (hk : 0 ≤ k) (x1 y1 x2 y2 : D) :
    dist (k * x1) (k * y1) (k * x2) (k * y2) = k * dist x1 y1 x2 y2 := by
  obtain ⟨h0, h2⟩ := hd x1 y1 x2 y2
  obtain ⟨hk0, hk2⟩ := hd (k * x1) (k * y1) (k * x2) (k * y2)
  rw [← sq_eq_sq₀ hk0 (mul_nonneg hk h0), hk2, mul_pow, h2]
  ring

theorem distanceSum_double (dist : D → D → D → D → D) (hd : IsEuclideanDistance dist)
    (w h : Int) (anchors brows : List (NormalizedLandmark D)) :
    distanceSum dist (2 * w) (2 * h) anchors brows = 2 * distanceSum dist w h anchors brows := by
  have key : ∀ a l : NormalizedLandmark D,
      dist (a.x * ((2 * w : Int) : D)) (a.y * ((2 * h : Int) : D))
          (l.x * ((2 * w : Int) : D)) (l.y * ((2 * h : Int) : D)) =
        2 * dist (a.x * (w : D)) (a.y * (h : D)) (l.x * (w : D)) (l.y * (h : D)) := by
    intro a l
    rw [← hd.scale 2 (by norm_num)]
    push_cast
    congr 1 <;> ring
  simp only [distanceSum, key, List.sum_map_mul_left]

end Distance

section Truncation

variable {D : Type} [LinearOrderedField D] [FloorRing D]

theorem truncate_intCast (n : Int) : truncate (n : D) = n := by
  unfold truncate
  split <;> simp

theorem truncate_eq_of_le_of_lt (v : D) (n : Int) (h0 : 0 ≤ v) (h1 : (n : D) ≤ v)
    (h2 : v < (n : D) + 1) : truncate v = n := by
  unfold truncate
  rw [if_pos h0]
  exact Int.floor_eq_iff.mpr ⟨h1, h2⟩

end Truncation

/-! ## The sample landmark set -/

theorem sampleLandmarks_length (D : Type) [LinearOrderedField D] :
    ((sampleLandmarks D).length : Int) = NTOTAL_LANDMARKS := by
  simp [sampleLandmarks, NTOTAL_LANDMARKS]

theorem sampleTables_valid : sampleTables.Valid := by
  decide

section Sample

variable {D : Type} [LinearOrderedField D]

theorem landmark_sampleLandmarks (i : Int) (h0 : 0 ≤ i) (h1 : i < 468) :
    landmark (sampleLandmarks D) i = some (sampleLandmark D i.toNat) := by
  have hi : i.toNat < 468 := by omega
  simp [landmark, sampleLandmarks, not_lt.mpr h0, hi]

theorem landmarksAt_sampleLandmarks (table : List Int) (h : InRange 468 table) :
    landmarksAt (sampleLandmarks D) table =
      some (table.map fun i => sampleLandmark D i.toNat) := by
  induction table with
  | nil => rfl
  | cons i rest ih =>
    have hi := h i (by simp)
    simp only [landmarksAt, landmark_sampleLandmarks i hi.1 hi.2,
      ih (fun j hj => h j (by simp [hj])), List.map_cons]

theorem landmarksAt_sample_anchors :
    landmarksAt (sampleLandmarks D) ANCHOR_LANDMARKS =
      some [⟨1, 0, 0⟩, ⟨1 / 2, 0, 0⟩, ⟨1 / 2, 0, 0⟩, ⟨1 / 2, 0, 0⟩, ⟨1 / 2, 0, 0⟩,
        ⟨1 / 2, 0, 0⟩] := by
  rw [landmarksAt_sampleLandmarks _ (by decide)]
  simp [ANCHOR_LANDMARKS, sampleLandmark]

theorem landmarksAt_sample_brow_right :
    landmarksAt (sampleLandmarks D) sampleTables.EYE_BROW_RIGHT_UPPER =
      some (List.replicate 8 ⟨0, 0, 0⟩) := by
  rw [landmarksAt_sampleLandmarks _ (by decide)]
  simp [sampleTables, sampleLandmark, List.replicate]

theorem landmarksAt_sample_brow_left :
    landmarksAt (sampleLandmarks D) sampleTables.EYE_BROW_LEFT_UPPER =
      some (List.replicate 8 ⟨0, 0, 0⟩) := by
  rw [landmarksAt_sampleLandmarks _ (by decide)]
  simp [sampleTables, sampleLandmark, List.replicate]

theorem landmarksAt_sample_eye_right :
    landmarksAt (sampleLandmarks D) sampleTables.EYE_RIGHT_INNER_LMARKS =
      some (List.replicate 16 ⟨0, 0, 0⟩) := by
  rw [landmarksAt_sampleLandmarks _ (by decide)]
  simp [sampleTables, sampleLandmark, List.replicate]

theorem landmarksAt_sample_eye_left :
    landmarksAt (sampleLandmarks D) sampleTables.EYE_LEFT_INNER_LMARKS =
      some (List.replicate 16 ⟨0, 0, 0⟩) := by
  rw [landmarksAt_sampleLandmarks _ (by decide)]
  simp [sampleTables, sampleLandmark, List.replicate]

theorem distanceSum_sample (dist : D → D → D → D → D) (hd : IsEuclideanDistance dist)
    (w h : Int) (hw : 0 ≤ w) :
    distanceSum dist w h
      [⟨1, 0, 0⟩, ⟨1 / 2, 0, 0⟩, ⟨1 / 2, 0, 0⟩, ⟨1 / 2, 0, 0⟩, ⟨1 / 2, 0, 0⟩, ⟨1 / 2, 0, 0⟩]
      (List.replicate 8 ⟨0, 0, 0⟩ ++ List.replicate 8 ⟨0, 0, 0⟩) = 56 * (w : D) := by
  have hw0 : (0 : D) ≤ (w : D) := by exact_mod_cast hw
  have h1 : |(w : D)| = w := abs_of_nonneg hw0
  have h2 : |(2 : D)⁻¹ * (w : D)| = 2⁻¹ * w := abs_of_nonneg (by positivity)
  simp [distanceSum, hd.horizontal, List.replicate, h1, h2]
  ring

theorem CalculateEyebrowActivity_sample (dist : D → D → D → D → D) [FloorRing D]
    (hd : IsEuclideanDistance dist) (w h : Int) (hw : 0 ≤ w) (nf area brow : D) :
    CalculateEyebrowActivity sampleTables (Helpers.ofDistance dist)
        (sampleAnalyzer D w h nf area brow) =
      some (56 * (w : D) / nf, sampleAnalyzer D w h nf area (56 * (w : D) / nf)) := by
  rw [CalculateEyebrowActivity_eq sampleTables (Helpers.ofDistance dist)
    (sampleAnalyzer D w h nf area brow) _ _ _ landmarksAt_sample_anchors
    landmarksAt_sample_brow_right landmarksAt_sample_brow_left]
  have hs := distanceSum_sample dist hd w h hw
  simp only [Helpers.ofDistance, sampleAnalyzer] at hs ⊢
  rw [hs]

theorem toPixel_origin [FloorRing D] (w h : Int) :
    toPixel w h (⟨0, 0, 0⟩ : NormalizedLandmark D) = ⟨0, 0⟩ := by
  simp [toPixel, truncate]

theorem Update_sample (dist : D → D → D → D → D) [FloorRing D]
    (hd : IsEuclideanDistance dist) (w h : Int) (hw : 0 ≤ w) (nf area brow : D) :
    Update sampleTables (Helpers.ofDistance dist) (sampleAnalyzer D w h nf area brow) =
      some (sampleAnalyzer D w h nf 0 (56 * (w : D) / nf)) := by
  simp only [Update, CalculateEyebrowActivity_sample dist hd w h hw]
  rw [CalculateEyesContoursArea_eq sampleTables (Helpers.ofDistance dist)
    (sampleAnalyzer D w h nf area (56 * (w : D) / nf)) _ _ landmarksAt_sample_eye_right
    landmarksAt_sample_eye_left rfl]
  simp [Helpers.ofDistance, sampleAnalyzer, List.replicate, toPixel_origin, polygonArea,
    shoelace, shoelaceLoop]

theorem toPixel_sample (w h half : Int) (hw : 0 ≤ w) (hhalf : half = w / 2) [FloorRing D] :
    toPixel w h (⟨1, 0, 0⟩ : NormalizedLandmark D) = ⟨w, 0⟩ ∧
    toPixel w h (⟨1 / 2, 0, 0⟩ : NormalizedLandmark D) = ⟨half, 0⟩ := by
  have hw0 : (0 : D) ≤ (w : D) := by exact_mod_cast hw
  have h1 : (2 : D) * (half : D) ≤ (w : D) := by
    have : 2 * half ≤ w := by omega
    exact_mod_cast this
  have h2 : (w : D) < 2 * ((half : D) + 1) := by
    have : w < 2 * (half + 1) := by omega
    exact_mod_cast this
  constructor
  · simp only [toPixel, one_mul, zero_mul, truncate_intCast]
    rw [truncate_eq_of_le_of_lt (0 : D) 0 (le_refl _) (by simp) (by simp)]
  · simp only [toPixel, zero_mul]
    rw [truncate_eq_of_le_of_lt (0 : D) 0 (le_refl _) (by simp) (by simp),
      truncate_eq_of_le_of_lt (1 / 2 * (w : D)) half (by positivity) (by linarith)
        (by linarith)]

theorem CalculateNormFactor_sample_anchors (dist : D → D → D → D → D) [FloorRing D]
    (hd : IsEuclideanDistance dist) (w h half : Int) (hw : 0 ≤ w) (hhalf : half = w / 2)
    (eps : D) (heps : eps < 10 * ((w : D) - (half : D))) :
    CalculateNormFactor dist eps ANCHOR_LANDMARKS (sampleLandmarks D) w h =
      some (10 * ((w : D) - (half : D))) := by
  obtain ⟨p1, p2⟩ := toPixel_sample (D := D) w h half hw hhalf
  have hle : (half : D) ≤ (w : D) := by
    have : half ≤ w := by omega
    exact_mod_cast this
  have a1 : |(w : D) - (half : D)| = w - half := abs_of_nonneg (by linarith)
  have a2 : |(half : D) - (w : D)| = w - half := by
    rw [abs_sub_comm]; exact a1
  simp only [CalculateNormFactor, landmarksAt_sample_anchors, List.map_cons, List.map_nil,
    p1, p2, hd.horizontal, List.sum_cons, List.sum_nil, sub_self, abs_zero, a1, a2,
    zero_add, add_zero]
  rw [if_neg]
  · congr 1; ring
  · rw [not_le]; calc eps < 10 * ((w : D) - (half : D)) := heps
      _ = _ := by ring

theorem CalculateNormFactor_sample_brows (dist : D → D → D → D → D) [FloorRing D]
    (hd : IsEuclideanDistance dist) (w h half : Int) (hw : 0 ≤ w) (hhalf : half = w / 2)
    (eps : D) (heps : eps < 16 * (w : D) + 80 * (half : D)) :
    CalculateNormFactor dist eps
        (sampleTables.EYE_BROW_RIGHT_UPPER ++ sampleTables.EYE_BROW_LEFT_UPPER)
        (sampleLandmarks D) w h =
      some (16 * (w : D) + 80 * (half : D)) := by
  obtain ⟨p1, p2⟩ := toPixel_sample (D := D) w h half hw hhalf
  have hw0 : (0 : D) ≤ (w : D) := by exact_mod_cast hw
  have hh0 : (0 : D) ≤ (half : D) := by
    have : 0 ≤ half := by omega
    exact_mod_cast this
  have a1 : |(w : D)| = w := abs_of_nonneg hw0
  have a2 : |(half : D)| = half := abs_of_nonneg hh0
  have hb : landmarksAt (sampleLandmarks D)
      (sampleTables.EYE_BROW_RIGHT_UPPER ++ sampleTables.EYE_BROW_LEFT_UPPER) =
      some (List.replicate 16 ⟨0, 0, 0⟩) := by
    rw [landmarksAt_sampleLandmarks _ (by decide)]
    simp [sampleTables, sampleLandmark, List.replicate]
  simp only [CalculateNormFactor, landmarksAt_sample_anchors, hb, List.replicate,
    List.map_cons, List.map_nil, p1, p2, toPixel_origin, hd.horizontal, List.sum_cons,
    List.sum_nil, Int.cast_zero, sub_zero, a1, a2, add_zero]
  rw [if_neg]
  · congr 1; ring
  · rw [not_le]; calc eps < 16 * (w : D) + 80 * (half : D) := heps
      _ = _ := by ring

end Sample

/-! ## Eyebrow activity -/

/-- C2: for every landmark set (468 points; the two inner-eye tables have the
same number of entries, all indices below 468) and every width and height,
starting from empty contour buffers, CalculateEyesContoursArea stores and
returns contourArea(R) + contourArea(L), where R is the sequence of the pixel
points of the landmarks of EYE_RIGHT_INNER_LMARKS in table order and L that of
EYE_LEFT_INNER_LMARKS; the buffers are empty again afterwards, nothing else
changes, and GetEyeInnerArea returns that same value. -/
theorem CalculateEyesContoursArea_spec {D : Type} [LinearOrderedField D]
    (T : EyeTables) (H : Helpers D) (s : EyeAnalyzer D)
    (hlen : (s.landmarks_.length : Int) = NTOTAL_LANDMARKS)
    (hTR : InRange NTOTAL_LANDMARKS T.EYE_RIGHT_INNER_LMARKS)
    (hTL : InRange NTOTAL_LANDMARKS T.EYE_LEFT_INNER_LMARKS)
    (hTlen : T.EYE_LEFT_INNER_LMARKS.length = T.EYE_RIGHT_INNER_LMARKS.length)
    (hR : s.eye_right_contour_ = []) (hL : s.eye_left_contour_ = []) :
    ∃ ers els value s1,
      landmarksAt s.landmarks_ T.EYE_RIGHT_INNER_LMARKS = some ers ∧
      landmarksAt s.landmarks_ T.EYE_LEFT_INNER_LMARKS = some els ∧
      value = H.contourArea (ers.map (H.CvtNormIntoCvPoint s.img_width_ s.img_height_)) +
              H.contourArea (els.map (H.CvtNormIntoCvPoint s.img_width_ s.img_height_)) ∧
      CalculateEyesContoursArea T H s = some (value, s1) ∧
      s1 = { s with eye_area_ := value } ∧
      GetEyeInnerArea s1 = value := by
  obtain ⟨ers, her, _⟩ := landmarksAt_of_inRange s.landmarks_ _ hlen hTR
  obtain ⟨els, hel, _⟩ := landmarksAt_of_inRange s.landmarks_ _ hlen hTL
  refine ⟨ers, els, _, { s with eye_area_ := _ }, her, hel, rfl, ?_, rfl, rfl⟩
  rw [CalculateEyesContoursArea_eq T H s ers els her hel hTlen]
  cases s
  simp only at hR hL
  subst hR; subst hL
  simp only [List.nil_append]

theorem CalculateEyesContoursArea_spec_witness :
    (((sampleAnalyzer ℝ 640 480 100 0 0).landmarks_.length : Int) = NTOTAL_LANDMARKS) ∧
    InRange NTOTAL_LANDMARKS sampleTables.EYE_RIGHT_INNER_LMARKS ∧
    InRange NTOTAL_LANDMARKS sampleTables.EYE_LEFT_INNER_LMARKS ∧
    sampleTables.EYE_LEFT_INNER_LMARKS.length = sampleTables.EYE_RIGHT_INNER_LMARKS.length ∧
    (sampleAnalyzer ℝ 640 480 100 0 0).eye_right_contour_ = [] ∧
    (sampleAnalyzer ℝ 640 480 100 0 0).eye_left_contour_ = [] ∧
    ∃ ers els value s1,
      landmarksAt (sampleAnalyzer ℝ 640 480 100 0 0).landmarks_
        sampleTables.EYE_RIGHT_INNER_LMARKS = some ers ∧
      landmarksAt (sampleAnalyzer ℝ 640 480 100 0 0).landmarks_
        sampleTables.EYE_LEFT_INNER_LMARKS = some els ∧
      value = polygonArea (ers.map (toPixel 640 480)) +
              polygonArea (els.map (toPixel 640 480)) ∧
      CalculateEyesContoursArea sampleTables
          (Helpers.ofDistance
            (fun x1 y1 x2 y2 : ℝ => Real.sqrt ((x1 - x2) ^ 2 + (y1 - y2) ^ 2)))
          (sampleAnalyzer ℝ 640 480 100 0 0) = some (value, s1) ∧
      s1 = { sampleAnalyzer ℝ 640 480 100 0 0 with eye_area_ := value } ∧
      GetEyeInnerArea s1 = value :=
  ⟨sampleLandmarks_length ℝ, by decide, by decide, rfl, rfl, rfl,
    CalculateEyesContoursArea_spec sampleTables
      (Helpers.ofDistance
        (fun x1 y1 x2 y2 : ℝ => Real.sqrt ((x1 - x2) ^ 2 + (y1 - y2) ^ 2)))
      (sampleAnalyzer ℝ 640 480 100 0 0) (sampleLandmarks_length ℝ) (by decide) (by decide)
      rfl rfl rfl⟩

/-! ## Doubling the image dimensions -/

/-- C3, as amended: when the distance is the Euclidean one, doubling width and
height doubles the summed distances exactly, so for every landmark set (468
points; the entries of the two eyebrow tables are indices below 468) the
eyebrowActivity computed with dimensions (2w, 2h) and a normalization factor
that is twice the nonzero one used with (w, h) equals the eyebrowActivity
computed with (w, h); both calls return. -/
theorem eyebrow_activity_scale {D : Type} [LinearOrderedField D]
    (T : EyeTables) (H : Helpers D) (s1 s2 : EyeAnalyzer D)
    (hd : IsEuclideanDistance H.EuclideanDistance)
    (hlen : (s1.landmarks_.length : Int) = NTOTAL_LANDMARKS)
    (hTR : InRange NTOTAL_LANDMARKS T.EYE_BROW_RIGHT_UPPER)
    (hTL : InRange NTOTAL_LANDMARKS T.EYE_BROW_LEFT_UPPER)
    (hlm : s2.landmarks_ = s1.landmarks_)
    (hw : s2.img_width_ = 2 * s1.img_width_) (hh : s2.img_height_ = 2 * s1.img_height_)
    (hnf0 : s1.norm_factor_ ≠ 0) (hnf : s2.norm_factor_ = 2 * s1.norm_factor_) :
    ∃ anchors rs ls value r1 r2,
      landmarksAt s1.landmarks_ ANCHOR_LANDMARKS = some anchors ∧
      landmarksAt s1.landmarks_ T.EYE_BROW_RIGHT_UPPER = some rs ∧
      landmarksAt s1.landmarks_ T.EYE_BROW_LEFT_UPPER = some ls ∧
      distanceSum H.EuclideanDistance s2.img_width_ s2.img_height_ anchors (rs ++ ls) =
        2 * distanceSum H.EuclideanDistance s1.img_width_ s1.img_height_ anchors (rs ++ ls) ∧
      CalculateEyebrowActivity T H s1 = some (value, r1) ∧
      CalculateEyebrowActivity T H s2 = some (value, r2) ∧
      GetEyebrow r1 = value ∧ GetEyebrow r2 = value := by
  obtain ⟨anchors, ha, _⟩ := landmarksAt_anchors s1.landmarks_ hlen
  obtain ⟨rs, hr, _⟩ := landmarksAt_of_inRange s1.landmarks_ _ hlen hTR
  obtain ⟨ls, hl, _⟩ := landmarksAt_of_inRange s1.landmarks_ _ hlen hTL
  have hsum : distanceSum H.EuclideanDistance s2.img_width_ s2.img_height_ anchors (rs ++ ls) =
      2 * distanceSum H.EuclideanDistance s1.img_width_ s1.img_height_ anchors (rs ++ ls) := by
    rw [hw, hh, distanceSum_double _ hd]
  have h2 := CalculateEyebrowActivity_eq T H s2 anchors rs ls (hlm ▸ ha) (hlm ▸ hr) (hlm ▸ hl)
  have hq : 2 * distanceSum H.EuclideanDistance s1.img_width_ s1.img_height_ anchors (rs ++ ls)
        / (2 * s1.norm_factor_) =
      distanceSum H.EuclideanDistance s1.img_width_ s1.img_height_ anchors (rs ++ ls)
        / s1.norm_factor_ :=
    (div_eq_div_iff (mul_ne_zero two_ne_zero hnf0) hnf0).mpr (by ring)
  rw [hsum, hnf, hq] at h2
  exact ⟨anchors, rs, ls, _, _, _, ha, hr, hl, hsum,
    CalculateEyebrowActivity_eq T H s1 anchors rs ls ha hr hl, h2, rfl, rfl⟩

theorem eyebrow_activity_scale_witness :
    IsEuclideanDistance
        (fun x1 y1 x2 y2 : ℝ => Real.sqrt ((x1 - x2) ^ 2 + (y1 - y2) ^ 2)) ∧
    (((sampleAnalyzer ℝ 641 481 3210 0 0).landmarks_.length : Int) = NTOTAL_LANDMARKS) ∧
    InRange NTOTAL_LANDMARKS sampleTables.EYE_BROW_RIGHT_UPPER ∧
    InRange NTOTAL_LANDMARKS sampleTables.EYE_BROW_LEFT_UPPER ∧
    (sampleAnalyzer ℝ 1282 962 6420 0 0).img_width_ =
      2 * (sampleAnalyzer ℝ 641 481 3210 0 0).img_width_ ∧
    (sampleAnalyzer ℝ 1282 962 6420 0 0).img_height_ =
      2 * (sampleAnalyzer ℝ 641 481 3210 0 0).img_height_ ∧
    (sampleAnalyzer ℝ 1282 962 6420 0 0).norm_factor_ =
      2 * (sampleAnalyzer ℝ 641 481 3210 0 0).norm_factor_ ∧
    ∃ anchors rs ls value r1 r2,
      landmarksAt (sampleAnalyzer ℝ 641 481 3210 0 0).landmarks_ ANCHOR_LANDMARKS = some anchors ∧
      landmarksAt (sampleAnalyzer ℝ 641 481 3210 0 0).landmarks_
        sampleTables.EYE_BROW_RIGHT_UPPER = some rs ∧
      landmarksAt (sampleAnalyzer ℝ 641 481 3210 0 0).landmarks_
        sampleTables.EYE_BROW_LEFT_UPPER = some ls ∧
      distanceSum
          (fun x1 y1 x2 y2 : ℝ => Real.sqrt ((x1 - x2) ^ 2 + (y1 - y2) ^ 2))
          (sampleAnalyzer ℝ 1282 962 6420 0 0).img_width_
          (sampleAnalyzer ℝ 1282 962 6420 0 0).img_height_ anchors (rs ++ ls) =
        2 * distanceSum
            (fun x1 y1 x2 y2 : ℝ => Real.sqrt ((x1 - x2) ^ 2 + (y1 - y2) ^ 2))
          (sampleAnalyzer ℝ 641 481 3210 0 0).img_width_
          (sampleAnalyzer ℝ 641 481 3210 0 0).img_height_ anchors (rs ++ ls) ∧
      CalculateEyebrowActivity sampleTables
          (Helpers.ofDistance
            (fun x1 y1 x2 y2 : ℝ => Real.sqrt ((x1 - x2) ^ 2 + (y1 - y2) ^ 2)))
        (sampleAnalyzer ℝ 641 481 3210 0 0) = some (value, r1) ∧
      CalculateEyebrowActivity sampleTables
          (Helpers.ofDistance
            (fun x1 y1 x2 y2 : ℝ => Real.sqrt ((x1 - x2) ^ 2 + (y1 - y2) ^ 2)))
        (sampleAnalyzer ℝ 1282 962 6420 0 0) = some (value, r2) ∧
      GetEyebrow r1 = value ∧ GetEyebrow r2 = value :=
  ⟨real_isEuclideanDistance, sampleLandmarks_length ℝ, by decide, by decide, rfl, rfl,
    by simp [sampleAnalyzer]; norm_num,
    eyebrow_activity_scale sampleTables
        (Helpers.ofDistance
          (fun x1 y1 x2 y2 : ℝ => Real.sqrt ((x1 - x2) ^ 2 + (y1 - y2) ^ 2)))
      (sampleAnalyzer ℝ 641 481 3210 0 0) (sampleAnalyzer ℝ 1282 962 6420 0 0)
      real_isEuclideanDistance (sampleLandmarks_length ℝ) (by decide) (by decide) rfl rfl rfl
      (by simp [sampleAnalyzer]) (by simp [sampleAnalyzer]; norm_num)⟩

/-- C3, as stated, fails: the pixel conversion truncates, so the normalization
factor derived for the doubled dimensions is not twice the original one.  For
the sample landmark set, the factor accumulated over the pairs of anchors is
3210 for a 641 x 481 image and 6410, not 6420, for a 1282 x 962 image, and the
eyebrowActivity is 35896/3210 for the former and 56/5 for the latter; the factor
accumulated over the pairs of an anchor and an eyebrow landmark is 35856 and
71792, not 71712, and the eyebrowActivity 35896/35856 and 1.  Either way the two
values differ by more than one millionth of the first. -/
theorem eyebrow_activity_scale_counterexample :
    (CalculateNormFactor
        (fun x1 y1 x2 y2 : ℝ => Real.sqrt ((x1 - x2) ^ 2 + (y1 - y2) ^ 2))
        (1 / 1000000) ANCHOR_LANDMARKS (sampleLandmarks ℝ) 641 481 = some 3210 ∧
      CalculateNormFactor
        (fun x1 y1 x2 y2 : ℝ => Real.sqrt ((x1 - x2) ^ 2 + (y1 - y2) ^ 2))
        (1 / 1000000) ANCHOR_LANDMARKS (sampleLandmarks ℝ) (2 * 641) (2 * 481) = some 6410 ∧
      CalculateEyebrowActivity sampleTables
          (Helpers.ofDistance
            (fun x1 y1 x2 y2 : ℝ => Real.sqrt ((x1 - x2) ^ 2 + (y1 - y2) ^ 2)))
          (sampleAnalyzer ℝ 641 481 3210 0 0) =
        some (35896 / 3210, sampleAnalyzer ℝ 641 481 3210 0 (35896 / 3210)) ∧
      CalculateEyebrowActivity sampleTables
          (Helpers.ofDistance
            (fun x1 y1 x2 y2 : ℝ => Real.sqrt ((x1 - x2) ^ 2 + (y1 - y2) ^ 2)))
          (sampleAnalyzer ℝ (2 * 641) (2 * 481) 6410 0 0) =
        some (56 / 5, sampleAnalyzer ℝ (2 * 641) (2 * 481) 6410 0 (56 / 5)) ∧
      (56 / 5 : ℝ) ≠ 35896 / 3210 ∧
      (1 / 1000000 : ℝ) * (35896 / 3210) < |56 / 5 - 35896 / 3210|) ∧
    (CalculateNormFactor
        (fun x1 y1 x2 y2 : ℝ => Real.sqrt ((x1 - x2) ^ 2 + (y1 - y2) ^ 2))
        (1 / 1000000)
        (sampleTables.EYE_BROW_RIGHT_UPPER ++ sampleTables.EYE_BROW_LEFT_UPPER)
        (sampleLandmarks ℝ) 641 481 = some 35856 ∧
      CalculateNormFactor
        (fun x1 y1 x2 y2 : ℝ => Real.sqrt ((x1 - x2) ^ 2 + (y1 - y2) ^ 2))
        (1 / 1000000)
        (sampleTables.EYE_BROW_RIGHT_UPPER ++ sampleTables.EYE_BROW_LEFT_UPPER)
        (sampleLandmarks ℝ) (2 * 641) (2 * 481) = some 71792 ∧
      CalculateEyebrowActivity sampleTables
          (Helpers.ofDistance
            (fun x1 y1 x2 y2 : ℝ => Real.sqrt ((x1 - x2) ^ 2 + (y1 - y2) ^ 2)))
          (sampleAnalyzer ℝ 641 481 35856 0 0) =
        some (35896 / 35856, sampleAnalyzer ℝ 641 481 35856 0 (35896 / 35856)) ∧
      CalculateEyebrowActivity sampleTables
          (Helpers.ofDistance
            (fun x1 y1 x2 y2 : ℝ => Real.sqrt ((x1 - x2) ^ 2 + (y1 - y2) ^ 2)))
          (sampleAnalyzer ℝ (2 * 641) (2 * 481) 71792 0 0) =
        some (1, sampleAnalyzer ℝ (2 * 641) (2 * 481) 71792 0 1) ∧
      (1 : ℝ) ≠ 35896 / 35856 ∧
      (1 / 1000000 : ℝ) * (35896 / 35856) < |1 - 35896 / 35856|) := by
  have habs1 : |(56 / 5 : ℝ) - 35896 / 3210| = 56 / 5 - 35896 / 3210 :=
    abs_of_nonneg (by norm_num)
  have habs2 : |(1 : ℝ) - 35896 / 35856| = 35896 / 35856 - 1 := by
    rw [abs_sub_comm]; exact abs_of_nonneg (by norm_num)
  refine ⟨⟨?_, ?_, ?_, ?_, by norm_num, by rw [habs1]; norm_num⟩,
    ⟨?_, ?_, ?_, ?_, by norm_num, by rw [habs2]; norm_num⟩⟩
  · rw [CalculateNormFactor_sample_anchors _ real_isEuclideanDistance 641 481 320 (by decide)
      (by decide) _ (by norm_num)]
    norm_num
  · rw [CalculateNormFactor_sample_anchors _ real_isEuclideanDistance (2 * 641) (2 * 481) 641
      (by decide) (by decide) _ (by norm_num)]
    norm_num
  · rw [CalculateEyebrowActivity_sample _ real_isEuclideanDistance 641 481 (by decide)]
    norm_num
  · rw [CalculateEyebrowActivity_sample _ real_isEuclideanDistance (2 * 641) (2 * 481)
      (by decide)]
    norm_num
  · rw [CalculateNormFactor_sample_brows _ real_isEuclideanDistance 641 481 320 (by decide)
      (by decide) _ (by norm_num)]
    norm_num
  · rw [CalculateNormFactor_sample_brows _ real_isEuclideanDistance (2 * 641) (2 * 481) 641
      (by decide) (by decide) _ (by norm_num)]
    norm_num
  · rw [CalculateEyebrowActivity_sample _ real_isEuclideanDistance 641 481 (by decide)]
    norm_num
  · rw [CalculateEyebrowActivity_sample _ real_isEuclideanDistance (2 * 641) (2 * 481)
      (by decide)]
    norm_num

/-! ## Running the recomputation again -/

/-- C4: idempotence.  For every landmark set (468 points, with well-formed
tables), dimensions and normalization factor, on an object whose contour buffers
are empty, Update returns, and running Update a second time on the object it
left (the same landmark set, dimensions and normalization factor) returns as
well and leaves the same eyeInnerArea and the same eyebrowActivity: the second
run changes nothing at all. -/
theorem Update_idempotent {D : Type} [LinearOrderedField D]
    (T : EyeTables) (H : Helpers D) (s : EyeAnalyzer D)
    (hlen : (s.landmarks_.length : Int) = NTOTAL_LANDMARKS) (hT : T.Valid)
    (hR : s.eye_right_contour_ = []) (hL : s.eye_left_contour_ = []) :
    ∃ s1 s2,
      Update T H s = some s1 ∧
      Update T H s1 = some s2 ∧
      GetEyeInnerArea s2 = GetEyeInnerArea s1 ∧
      GetEyebrow s2 = GetEyebrow s1 ∧
      s2 = s1 := by
  obtain ⟨anchors, rs, ls, ers, els, ha, hr, hl, her, hel, _, _, h1⟩ :=
    Update_total T H s hlen hT
  refine ⟨_, _, h1, ?_, rfl, rfl, rfl⟩
  have h2 := Update_eq T H
    { s with
      eyebrow_anchor_dist_sum_ :=
        distanceSum H.EuclideanDistance s.img_width_ s.img_height_ anchors (rs ++ ls)
          / s.norm_factor_
      eye_area_ :=
        H.contourArea (s.eye_right_contour_ ++
            ers.map (H.CvtNormIntoCvPoint s.img_width_ s.img_height_)) +
          H.contourArea (s.eye_left_contour_ ++
            els.map (H.CvtNormIntoCvPoint s.img_width_ s.img_height_))
      eye_right_contour_ := []
      eye_left_contour_ := [] }
    anchors rs ls ers els ha hr hl her hel hT.2.2.2.2
  rw [h2]
  simp only [hR, hL, List.nil_append]

theorem Update_idempotent_witness :
    (((sampleAnalyzer ℝ 640 480 100 0 0).landmarks_.length : Int) = NTOTAL_LANDMARKS) ∧
    sampleTables.Valid ∧
    (sampleAnalyzer ℝ 640 480 100 0 0).eye_right_contour_ = [] ∧
    (sampleAnalyzer ℝ 640 480 100 0 0).eye_left_contour_ = [] ∧
    ∃ s1 s2,
      Update sampleTables
          (Helpers.ofDistance
            (fun x1 y1 x2 y2 : ℝ => Real.sqrt ((x1 - x2) ^ 2 + (y1 - y2) ^ 2)))
          (sampleAnalyzer ℝ 640 480 100 0 0) = some s1 ∧
      Update sampleTables
          (Helpers.ofDistance
            (fun x1 y1 x2 y2 : ℝ => Real.sqrt ((x1 - x2) ^ 2 + (y1 - y2) ^ 2)))
          s1 = some s2 ∧
      GetEyeInnerArea s2 = GetEyeInnerArea s1 ∧
      GetEyebrow s2 = GetEyebrow s1 ∧
      s2 = s1 :=
  ⟨sampleLandmarks_length ℝ, sampleTables_valid, rfl, rfl,
    Update_idempotent sampleTables
        (Helpers.ofDistance
          (fun x1 y1 x2 y2 : ℝ => Real.sqrt ((x1 - x2) ^ 2 + (y1 - y2) ^ 2)))
      (sampleAnalyzer ℝ 640 480 100 0 0) (sampleLandmarks_length ℝ) sampleTables_valid
      rfl rfl⟩

/-! ## Previously cached metrics -/

/-- C5: full overwrite.  Two objects that hold the same landmark set (468
points, with well-formed tables), width, height and normalization factor, and
whose contour buffers are empty, may differ arbitrarily in the cached
eyeInnerArea and eyebrowActivity: Update returns on both and leaves them with
identical eyeInnerArea and identical eyebrowActivity (indeed identical in every
member). -/
theorem Update_overwrites_cache {D : Type} [LinearOrderedField D]
    (T : EyeTables) (H : Helpers D) (s1 s2 : EyeAnalyzer D)
    (hlen : (s1.landmarks_.length : Int) = NTOTAL_LANDMARKS) (hT : T.Valid)
    (hlm : s2.landmarks_ = s1.landmarks_)
    (hw : s2.img_width_ = s1.img_width_) (hh : s2.img_height_ = s1.img_height_)
    (hnf : s2.norm_factor_ = s1.norm_factor_)
    (hR1 : s1.eye_right_contour_ = []) (hL1 : s1.eye_left_contour_ = [])
    (hR2 : s2.eye_right_contour_ = []) (hL2 : s2.eye_left_contour_ = []) :
    ∃ r1 r2,
      Update T H s1 = some r1 ∧
      Update T H s2 = some r2 ∧
      GetEyeInnerArea r1 = GetEyeInnerArea r2 ∧
      GetEyebrow r1 = GetEyebrow r2 ∧
      r1 = r2 := by
  obtain ⟨anchors, rs, ls, ers, els, ha, hr, hl, her, hel, _, _, h1⟩ :=
    Update_total T H s1 hlen hT
  have h2 := Update_eq T H s2 anchors rs ls ers els (hlm ▸ ha) (hlm ▸ hr) (hlm ▸ hl)
    (hlm ▸ her) (hlm ▸ hel) hT.2.2.2.2
  have hr12 : ({ s2 with
        eyebrow_anchor_dist_sum_ :=
          distanceSum H.EuclideanDistance s2.img_width_ s2.img_height_ anchors (rs ++ ls)
            / s2.norm_factor_
        eye_area_ :=
          H.contourArea (s2.eye_right_contour_ ++
              ers.map (H.CvtNormIntoCvPoint s2.img_width_ s2.img_height_)) +
            H.contourArea (s2.eye_left_contour_ ++
              els.map (H.CvtNormIntoCvPoint s2.img_width_ s2.img_height_))
        eye_right_contour_ := []
        eye_left_contour_ := [] } : EyeAnalyzer D) =
      { s1 with
        eyebrow_anchor_dist_sum_ :=
          distanceSum H.EuclideanDistance s1.img_width_ s1.img_height_ anchors (rs ++ ls)
            / s1.norm_factor_
        eye_area_ :=
          H.contourArea (s1.eye_right_contour_ ++
              ers.map (H.CvtNormIntoCvPoint s1.img_width_ s1.img_height_)) +
            H.contourArea (s1.eye_left_contour_ ++
              els.map (H.CvtNormIntoCvPoint s1.img_width_ s1.img_height_))
        eye_right_contour_ := []
        eye_left_contour_ := [] } := by
    simp only [hlm, hw, hh, hnf, hR1, hL1, hR2, hL2]
  rw [hr12] at h2
  exact ⟨_, _, h1, h2, rfl, rfl, rfl⟩

theorem Update_overwrites_cache_witness :
    (((sampleAnalyzer ℝ 640 480 100 0 0).landmarks_.length : Int) = NTOTAL_LANDMARKS) ∧
    sampleTables.Valid ∧
    (sampleAnalyzer ℝ 640 480 100 0 0).eye_area_
      ≠ (sampleAnalyzer ℝ 640 480 100 7 5).eye_area_ ∧
    (sampleAnalyzer ℝ 640 480 100 0 0).eyebrow_anchor_dist_sum_
      ≠ (sampleAnalyzer ℝ 640 480 100 7 5).eyebrow_anchor_dist_sum_ ∧
    ∃ r1 r2,
      Update sampleTables
          (Helpers.ofDistance
            (fun x1 y1 x2 y2 : ℝ => Real.sqrt ((x1 - x2) ^ 2 + (y1 - y2) ^ 2)))
          (sampleAnalyzer ℝ 640 480 100 0 0) = some r1 ∧
      Update sampleTables
          (Helpers.ofDistance
            (fun x1 y1 x2 y2 : ℝ => Real.sqrt ((x1 - x2) ^ 2 + (y1 - y2) ^ 2)))
          (sampleAnalyzer ℝ 640 480 100 7 5) = some r2 ∧
      GetEyeInnerArea r1 = GetEyeInnerArea r2 ∧
      GetEyebrow r1 = GetEyebrow r2 ∧
      r1 = r2 :=
  ⟨sampleLandmarks_length ℝ, sampleTables_valid,
    by simp [sampleAnalyzer], by simp [sampleAnalyzer],
    Update_overwrites_cache sampleTables
        (Helpers.ofDistance
          (fun x1 y1 x2 y2 : ℝ => Real.sqrt ((x1 - x2) ^ 2 + (y1 - y2) ^ 2)))
      (sampleAnalyzer ℝ 640 480 100 0 0) (sampleAnalyzer ℝ 640 480 100 7 5)
      (sampleLandmarks_length ℝ) sampleTables_valid rfl rfl rfl rfl rfl rfl rfl rfl⟩

/-! ## Reading before any landmark set -/

/-- C6, as amended: GetEyebrow and GetEyeInnerArea never fail and give no
signal of an uncomputed metric.  On every object they return the current
content of eyebrow_anchor_dist_sum_ and of eye_area_; on an analyzer that was
only constructed this is whatever the two members held at construction, an
ordinary number. -/
theorem accessors_return_members {D : Type} [LinearOrderedField D] :
    (∀ s : EyeAnalyzer D,
      GetEyebrow s = s.eyebrow_anchor_dist_sum_ ∧ GetEyeInnerArea s = s.eye_area_) ∧
    (∀ (w h : Int) (nf0 area0 brow0 : D),
      GetEyebrow (EyeAnalyzer.construct w h nf0 area0 brow0) = brow0 ∧
      GetEyeInnerArea (EyeAnalyzer.construct w h nf0 area0 brow0) = area0) :=
  ⟨fun _ => ⟨rfl, rfl⟩, fun _ _ _ _ _ => ⟨rfl, rfl⟩⟩

/-- C6, as stated, fails: on an analyzer constructed for a 640 x 480 image, on
which SetLandmarks was never called and whose members hold 0, GetEyebrow and
GetEyeInnerArea return the number 0. -/
theorem accessors_return_members_counterexample :
    (EyeAnalyzer.construct 640 480 (0 : ℚ) 0 0).landmarks_ = [] ∧
    GetEyebrow (EyeAnalyzer.construct 640 480 (0 : ℚ) 0 0) = 0 ∧
    GetEyeInnerArea (EyeAnalyzer.construct 640 480 (0 : ℚ) 0 0) = 0 :=
  ⟨rfl, rfl, rfl⟩

/-! ## A normalization factor that is not positive -/

/-- C7, as amended: CalculateEyebrowActivity and Update make no check of the
normalization factor.  For every landmark set (468 points, with well-formed
tables) and every normalization factor, zero and negative ones included, Update
returns, stores the contour area as eyeInnerArea whatever the member held
before, and leaves the factor as it was; for every factor other than zero,
negative and near-zero ones included, it stores the summed distances divided by
the factor as eyebrowActivity, whatever the member held before. -/
theorem Update_any_norm_factor {D : Type} [LinearOrderedField D]
    (T : EyeTables) (H : Helpers D) (s : EyeAnalyzer D)
    (hlen : (s.landmarks_.length : Int) = NTOTAL_LANDMARKS) (hT : T.Valid)
    (hR : s.eye_right_contour_ = []) (hL : s.eye_left_contour_ = []) :
    ∀ nf area brow : D,
      ∃ anchors rs ls ers els r,
        landmarksAt s.landmarks_ ANCHOR_LANDMARKS = some anchors ∧
        landmarksAt s.landmarks_ T.EYE_BROW_RIGHT_UPPER = some rs ∧
        landmarksAt s.landmarks_ T.EYE_BROW_LEFT_UPPER = some ls ∧
        landmarksAt s.landmarks_ T.EYE_RIGHT_INNER_LMARKS = some ers ∧
        landmarksAt s.landmarks_ T.EYE_LEFT_INNER_LMARKS = some els ∧
        Update T H { s with norm_factor_ := nf, eye_area_ := area,
                            eyebrow_anchor_dist_sum_ := brow } = some r ∧
        r.norm_factor_ = nf ∧
        GetEyeInnerArea r =
          H.contourArea (ers.map (H.CvtNormIntoCvPoint s.img_width_ s.img_height_)) +
            H.contourArea (els.map (H.CvtNormIntoCvPoint s.img_width_ s.img_height_)) ∧
        (nf ≠ 0 →
          GetEyebrow r =
            distanceSum H.EuclideanDistance s.img_width_ s.img_height_ anchors (rs ++ ls)
              / nf) := by
  intro nf area brow
  obtain ⟨anchors, rs, ls, ers, els, ha, hr, hl, her, hel, _, _, h1⟩ :=
    Update_total T H { s with norm_factor_ := nf, eye_area_ := area,
                              eyebrow_anchor_dist_sum_ := brow } hlen hT
  refine ⟨anchors, rs, ls, ers, els, _, ha, hr, hl, her, hel, h1, rfl, ?_, fun _ => rfl⟩
  simp only [GetEyeInnerArea, hR, hL, List.nil_append]

theorem Update_any_norm_factor_witness :
    (((sampleAnalyzer ℝ 640 480 100 0 0).landmarks_.length : Int) = NTOTAL_LANDMARKS) ∧
    sampleTables.Valid ∧
    (sampleAnalyzer ℝ 640 480 100 0 0).eye_right_contour_ = [] ∧
    (sampleAnalyzer ℝ 640 480 100 0 0).eye_left_contour_ = [] ∧
    (-1 : ℝ) ≠ 0 ∧
    ∃ anchors rs ls ers els r,
      landmarksAt (sampleLandmarks ℝ) ANCHOR_LANDMARKS = some anchors ∧
      landmarksAt (sampleLandmarks ℝ) sampleTables.EYE_BROW_RIGHT_UPPER = some rs ∧
      landmarksAt (sampleLandmarks ℝ) sampleTables.EYE_BROW_LEFT_UPPER = some ls ∧
      landmarksAt (sampleLandmarks ℝ) sampleTables.EYE_RIGHT_INNER_LMARKS = some ers ∧
      landmarksAt (sampleLandmarks ℝ) sampleTables.EYE_LEFT_INNER_LMARKS = some els ∧
      Update sampleTables
          (Helpers.ofDistance
            (fun x1 y1 x2 y2 : ℝ => Real.sqrt ((x1 - x2) ^ 2 + (y1 - y2) ^ 2)))
          (sampleAnalyzer ℝ 640 480 (-1) 7 5) = some r ∧
      r.norm_factor_ = -1 ∧
      GetEyeInnerArea r =
        polygonArea (ers.map (toPixel 640 480)) + polygonArea (els.map (toPixel 640 480)) ∧
      GetEyebrow r = distanceSum
          (fun x1 y1 x2 y2 : ℝ => Real.sqrt ((x1 - x2) ^ 2 + (y1 - y2) ^ 2))
          640 480 anchors (rs ++ ls) / (-1) := by
  have hne : (-1 : ℝ) ≠ 0 := by norm_num
  obtain ⟨anchors, rs, ls, ers, els, r, ha, hr, hl, her, hel, hu, hnf, harea, hbrow⟩ :=
    Update_any_norm_factor sampleTables
      (Helpers.ofDistance
        (fun x1 y1 x2 y2 : ℝ => Real.sqrt ((x1 - x2) ^ 2 + (y1 - y2) ^ 2)))
      (sampleAnalyzer ℝ 640 480 100 0 0) (sampleLandmarks_length ℝ) sampleTables_valid
      rfl rfl (-1) 7 5
  exact ⟨sampleLandmarks_length ℝ, sampleTables_valid, rfl, rfl, hne,
    anchors, rs, ls, ers, els, r, ha, hr, hl, her, hel, hu, hnf, harea, hbrow hne⟩

/-- C7, as stated, fails: with normalization factor -1, cached eyeInnerArea 7
and cached eyebrowActivity 5, Update on the sample landmark set of a 640 x 480
image returns and leaves eyeInnerArea 0 and eyebrowActivity 35840 / (-1); with
the factor one billionth it returns as well and leaves eyebrowActivity
35840 * 1000000000. -/
theorem Update_any_norm_factor_counterexample :
    (sampleAnalyzer ℝ 640 480 (-1) 7 5).norm_factor_ < 0 ∧
    Update sampleTables
        (Helpers.ofDistance
          (fun x1 y1 x2 y2 : ℝ => Real.sqrt ((x1 - x2) ^ 2 + (y1 - y2) ^ 2)))
        (sampleAnalyzer ℝ 640 480 (-1) 7 5) =
      some (sampleAnalyzer ℝ 640 480 (-1) 0 (35840 / (-1))) ∧
    (sampleAnalyzer ℝ 640 480 (-1) 0 (35840 / (-1))).eyebrow_anchor_dist_sum_ ≠
      (sampleAnalyzer ℝ 640 480 (-1) 7 5).eyebrow_anchor_dist_sum_ ∧
    (sampleAnalyzer ℝ 640 480 (-1) 0 (35840 / (-1))).eye_area_ ≠
      (sampleAnalyzer ℝ 640 480 (-1) 7 5).eye_area_ ∧
    Update sampleTables
        (Helpers.ofDistance
          (fun x1 y1 x2 y2 : ℝ => Real.sqrt ((x1 - x2) ^ 2 + (y1 - y2) ^ 2)))
        (sampleAnalyzer ℝ 640 480 (1 / 1000000000) 7 5) =
      some (sampleAnalyzer ℝ 640 480 (1 / 1000000000) 0 (35840 * 1000000000)) ∧
    (sampleAnalyzer ℝ 640 480 (1 / 1000000000) 0 (35840 * 1000000000)).eyebrow_anchor_dist_sum_
      ≠ (sampleAnalyzer ℝ 640 480 (1 / 1000000000) 7 5).eyebrow_anchor_dist_sum_ := by
  refine ⟨by simp [sampleAnalyzer], ?_, by simp [sampleAnalyzer]; norm_num,
    by simp [sampleAnalyzer], ?_, by simp [sampleAnalyzer]; norm_num⟩
  · rw [Update_sample _ real_isEuclideanDistance 640 480 (by decide)]
    norm_num
  · rw [Update_sample _ real_isEuclideanDistance 640 480 (by decide)]
    norm_num

/-! ## Polygon area -/

theorem shoelaceLoop_on_line_x (a b c : Int) :
    ∀ (pts : List Point) (prev : Point) (a00 : Int),
      a * prev.x + b * prev.y = c → (∀ p ∈ pts, a * p.x + b * p.y = c) →
      b * shoelaceLoop prev pts a00 =
        b * a00 + c * (prev.x - (pts.getLast?.getD prev).x) := by
  intro pts
  induction pts with
  | nil => intro prev a00 _ _; simp [shoelaceLoop]
  | cons p rest ih =>
    intro prev a00 hprev hpts
    have hp : a * p.x + b * p.y = c := hpts p (by simp)
    rw [shoelaceLoop, ih p _ hp (fun q hq => hpts q (by simp [hq])), List.getLast?_cons,
      Option.getD_some]
    linear_combination prev.x * hp - p.x * hprev

theorem shoelaceLoop_on_line_y (a b c : Int) :
    ∀ (pts : List Point) (prev : Point) (a00 : Int),
      a * prev.x + b * prev.y = c → (∀ p ∈ pts, a * p.x + b * p.y = c) →
      a * shoelaceLoop prev pts a00 =
        a * a00 + c * ((pts.getLast?.getD prev).y - prev.y) := by
  intro pts
  induction pts with
  | nil => intro prev a00 _ _; simp [shoelaceLoop]
  | cons p rest ih =>
    intro prev a00 hprev hpts
    have hp : a * p.x + b * p.y = c := hpts p (by simp)
    rw [shoelaceLoop, ih p _ hp (fun q hq => hpts q (by simp [hq])), List.getLast?_cons,
      Option.getD_some]
    linear_combination p.y * hprev - prev.y * hp

theorem shoelace_collinear (pts : List Point) (h : Collinear pts) : shoelace pts = 0 := by
  obtain ⟨a, b, c, hab, hline⟩ := h
  unfold shoelace
  cases hlast : pts.getLast? with
  | none => rfl
  | some last =>
    have hmem : last ∈ pts := List.mem_of_mem_getLast? hlast
    have hx := shoelaceLoop_on_line_x a b c pts last 0 (hline last hmem) hline
    have hy := shoelaceLoop_on_line_y a b c pts last 0 (hline last hmem) hline
    simp only [hlast, Option.getD_some, sub_self, mul_zero, add_zero] at hx hy
    rcases hab with ha | hb
    · exact (mul_eq_zero.mp hy).resolve_left ha
    · exact (mul_eq_zero.mp hx).resolve_left hb

theorem shoelace_short (pts : List Point) (h : pts.length < 3) : shoelace pts = 0 := by
  match pts, h with
  | [], _ => rfl
  | [p], _ => simp [shoelace, shoelaceLoop]; ring
  | [p, q], _ => simp [shoelace, shoelaceLoop]; ring

/-- C8: polygonArea, the shoelace accumulation applied to each eye contour,
is non-negative for every sequence of integer pixel points; it is exactly 0 when
the sequence has fewer than 3 points and when all its points lie on one line;
consequently the eyeInnerArea that CalculateEyesContoursArea stores and returns
is non-negative for every landmark set; and the square (0,0), (10,0), (10,10),
(0,10) has polygonArea 100. -/
theorem polygonArea_spec {D : Type} [LinearOrderedField D] :
    (∀ pts : List Point, (0 : D) ≤ polygonArea pts) ∧
    (∀ pts : List Point, pts.length < 3 → (polygonArea pts : D) = 0) ∧
    (∀ pts : List Point, Collinear pts → (polygonArea pts : D) = 0) ∧
    (∀ (T : EyeTables) (H : Helpers D) (s : EyeAnalyzer D),
      (s.landmarks_.length : Int) = NTOTAL_LANDMARKS → T.Valid →
      ∃ value s1,
        CalculateEyesContoursArea T { H with contourArea := polygonArea } s
          = some (value, s1) ∧
        0 ≤ value ∧ GetEyeInnerArea s1 = value) ∧
    (polygonArea [⟨0, 0⟩, ⟨10, 0⟩, ⟨10, 10⟩, ⟨0, 10⟩] : D) = 100 := by
  refine ⟨fun pts => abs_nonneg _, ?_, ?_, ?_, ?_⟩
  · intro pts h
    simp [polygonArea, shoelace_short pts h]
  · intro pts h
    simp [polygonArea, shoelace_collinear pts h]
  · intro T H s hlen hT
    obtain ⟨_, i1, i2, _, _⟩ := inRange_of_valid T s.landmarks_ hlen hT
    obtain ⟨ers, her, _⟩ := landmarksAt_isSome _ _ i1
    obtain ⟨els, hel, _⟩ := landmarksAt_isSome _ _ i2
    refine ⟨_, _, CalculateEyesContoursArea_eq T _ s ers els her hel hT.2.2.2.2, ?_, rfl⟩
    exact add_nonneg (abs_nonneg _) (abs_nonneg _)
  · simp [polygonArea, shoelace, shoelaceLoop]
    norm_num

theorem polygonArea_spec_witness :
    ([⟨3, 4⟩, ⟨7, 1⟩] : List Point).length < 3 ∧
    (polygonArea [⟨3, 4⟩, ⟨7, 1⟩] : ℝ) = 0 ∧
    Collinear [⟨0, 0⟩, ⟨2, 1⟩, ⟨6, 3⟩, ⟨4, 2⟩] ∧
    (polygonArea [⟨0, 0⟩, ⟨2, 1⟩, ⟨6, 3⟩, ⟨4, 2⟩] : ℝ) = 0 ∧
    (((sampleAnalyzer ℝ 640 480 100 0 0).landmarks_.length : Int) = NTOTAL_LANDMARKS) ∧
    sampleTables.Valid ∧
    ∃ value s1,
      CalculateEyesContoursArea sampleTables
          (Helpers.ofDistance (fun x1 y1 x2 y2 : ℝ => Real.sqrt ((x1 - x2) ^ 2 + (y1 - y2) ^ 2)))
          (sampleAnalyzer ℝ 640 480 100 0 0) = some (value, s1) ∧
      0 ≤ value ∧ GetEyeInnerArea s1 = value :=
  ⟨by decide,
    polygonArea_spec.2.1 _ (by decide),
    ⟨1, -2, 0, by decide, by decide⟩,
    polygonArea_spec.2.2.1 _ ⟨1, -2, 0, by decide, by decide⟩,
    sampleLandmarks_length ℝ, sampleTables_valid,
    polygonArea_spec.2.2.2.1 sampleTables
      (Helpers.ofDistance (fun x1 y1 x2 y2 : ℝ => Real.sqrt ((x1 - x2) ^ 2 + (y1 - y2) ^ 2)))
      (sampleAnalyzer ℝ 640 480 100 0 0) (sampleLandmarks_length ℝ) sampleTables_valid⟩

/-! ## Anchor indices are landmark indices -/

/-- C9: every entry of ANCHOR_LANDMARKS lies in [0, 467], that is below
NTOTAL_LANDMARKS = 468, and in a landmark list of exactly 468 points every
lookup `landmark(a)` of an anchor index succeeds. -/
theorem anchor_landmarks_in_range :
    NTOTAL_LANDMARKS = 468 ∧
    ANCHOR_LANDMARKS = [1, 4, 5, 195, 197, 6] ∧
    (∀ a ∈ ANCHOR_LANDMARKS, 0 ≤ a ∧ a ≤ 467 ∧ a < NTOTAL_LANDMARKS) ∧
    (∀ (α : Type) (landmarks : List α), (landmarks.length : Int) = NTOTAL_LANDMARKS →
      ∀ a ∈ ANCHOR_LANDMARKS, ∃ p, landmark landmarks a = some p) := by
  refine ⟨rfl, rfl, by decide, ?_⟩
  intro α landmarks hlen a ha
  have h : 0 ≤ a ∧ a ≤ 467 := by
    revert a; decide
  apply landmark_isSome
  · exact h.1
  · rw [hlen]; unfold NTOTAL_LANDMARKS; omega

theorem anchor_landmarks_in_range_witness :
    (((sampleLandmarks ℚ).length : Int) = NTOTAL_LANDMARKS) ∧
    (195 : Int) ∈ ANCHOR_LANDMARKS ∧
    ∃ p, landmark (sampleLandmarks ℚ) 195 = some p :=
  ⟨sampleLandmarks_length ℚ, by decide,
    anchor_landmarks_in_range.2.2.2 _ (sampleLandmarks ℚ) (sampleLandmarks_length ℚ) 195
      (by decide)⟩

/-! ## The contour buffers -/

theorem Call_run_empty {D : Type} [LinearOrderedField D]
    (T : EyeTables) (H : Helpers D) (hT : T.Valid) (c : Call) (s : EyeAnalyzer D)
    (hlen : (s.landmarks_.length : Int) = NTOTAL_LANDMARKS) :
    ∃ s1, c.run T H s = some s1 ∧ s1.landmarks_ = s.landmarks_ ∧
      s1.eye_right_contour_ = [] ∧ s1.eye_left_contour_ = [] := by
  obtain ⟨anchors, rs, ls, ers, els, ha, hr, hl, her, hel, _, _, h1⟩ :=
    Update_total T H s hlen hT
  cases c with
  | update => exact ⟨_, h1, rfl, rfl, rfl⟩
  | calculateEyesContoursArea =>
    have h2 : Call.calculateEyesContoursArea.run T H s = some
        { s with
          eye_area_ :=
            H.contourArea (s.eye_right_contour_ ++
                ers.map (H.CvtNormIntoCvPoint s.img_width_ s.img_height_)) +
              H.contourArea (s.eye_left_contour_ ++
                els.map (H.CvtNormIntoCvPoint s.img_width_ s.img_height_))
          eye_right_contour_ := []
          eye_left_contour_ := [] } := by
      simp only [Call.run, CalculateEyesContoursArea_eq T H s ers els her hel hT.2.2.2.2]
    exact ⟨_, h2, rfl, rfl, rfl⟩

theorem runCalls_empty {D : Type} [LinearOrderedField D]
    (T : EyeTables) (H : Helpers D) (hT : T.Valid) :
    ∀ (calls : List Call) (s : EyeAnalyzer D),
      (s.landmarks_.length : Int) = NTOTAL_LANDMARKS →
      s.eye_right_contour_ = [] → s.eye_left_contour_ = [] →
      ∃ s1, runCalls T H calls s = some s1 ∧ s1.landmarks_ = s.landmarks_ ∧
        s1.eye_right_contour_ = [] ∧ s1.eye_left_contour_ = [] := by
  intro calls
  induction calls with
  | nil => intro s _ hR hL; exact ⟨s, rfl, rfl, hR, hL⟩
  | cons c rest ih =>
    intro s hlen _ _
    obtain ⟨s1, h1, hlm, hR1, hL1⟩ := Call_run_empty T H hT c s hlen
    obtain ⟨s2, h2, hlm2, hR2, hL2⟩ := ih s1 (by rw [hlm]; exact hlen) hR1 hL1
    exact ⟨s2, by simp only [runCalls, h1, h2], by rw [hlm2, hlm], hR2, hL2⟩

/-- C10: empty contour buffers are an invariant of the eye analyzer.  The
buffers are empty at construction.  With well-formed tables and 468 landmarks:
if both buffers are empty before Update, Update returns and both are empty after
it; the same holds after every sequence of Update and
CalculateEyesContoursArea calls, so each call of GenerateEyeContours in such a
sequence starts from empty buffers; and GenerateEyeContours, started from empty
buffers, leaves in each contour exactly as many points as its index table has
entries. -/
theorem contour_buffers_stay_empty {D : Type} [LinearOrderedField D]
    (T : EyeTables) (H : Helpers D) (hT : T.Valid) :
    (∀ (w h : Int) (nf0 area0 brow0 : D),
      (EyeAnalyzer.construct w h nf0 area0 brow0).eye_right_contour_ = [] ∧
      (EyeAnalyzer.construct w h nf0 area0 brow0).eye_left_contour_ = []) ∧
    (∀ s : EyeAnalyzer D, (s.landmarks_.length : Int) = NTOTAL_LANDMARKS →
      s.eye_right_contour_ = [] → s.eye_left_contour_ = [] →
      ∃ s1, Update T H s = some s1 ∧
        s1.eye_right_contour_ = [] ∧ s1.eye_left_contour_ = []) ∧
    (∀ (calls : List Call) (s : EyeAnalyzer D),
      (s.landmarks_.length : Int) = NTOTAL_LANDMARKS →
      s.eye_right_contour_ = [] → s.eye_left_contour_ = [] →
      ∃ s1, runCalls T H calls s = some s1 ∧
        s1.eye_right_contour_ = [] ∧ s1.eye_left_contour_ = []) ∧
    (∀ s : EyeAnalyzer D, (s.landmarks_.length : Int) = NTOTAL_LANDMARKS →
      s.eye_right_contour_ = [] → s.eye_left_contour_ = [] →
      ∃ s1, GenerateEyeContours T H s = some s1 ∧
        s1.eye_right_contour_.length = T.EYE_RIGHT_INNER_LMARKS.length ∧
        s1.eye_left_contour_.length = T.EYE_LEFT_INNER_LMARKS.length) := by
  refine ⟨fun _ _ _ _ _ => ⟨rfl, rfl⟩, ?_, ?_, ?_⟩
  · intro s hlen _ _
    obtain ⟨s1, h1, _, hR1, hL1⟩ := Call_run_empty T H hT Call.update s hlen
    exact ⟨s1, h1, hR1, hL1⟩
  · intro calls s hlen hR hL
    obtain ⟨s1, h1, _, hR1, hL1⟩ := runCalls_empty T H hT calls s hlen hR hL
    exact ⟨s1, h1, hR1, hL1⟩
  · intro s hlen hR hL
    obtain ⟨_, _, _, ers, els, _, _, _, her, hel, hers, hels, _⟩ :=
      Update_total T H s hlen hT
    refine ⟨_, GenerateEyeContours_eq T H s ers els her hel hT.2.2.2.2, ?_, ?_⟩
    · simp [hR, hers]
    · simp [hL, hels]

theorem contour_buffers_stay_empty_witness :
    sampleTables.Valid ∧
    (((sampleAnalyzer ℝ 640 480 100 0 0).landmarks_.length : Int) = NTOTAL_LANDMARKS) ∧
    (sampleAnalyzer ℝ 640 480 100 0 0).eye_right_contour_ = [] ∧
    (sampleAnalyzer ℝ 640 480 100 0 0).eye_left_contour_ = [] ∧
    (∃ s1, runCalls sampleTables
        (Helpers.ofDistance
          (fun x1 y1 x2 y2 : ℝ => Real.sqrt ((x1 - x2) ^ 2 + (y1 - y2) ^ 2)))
        [Call.update, Call.calculateEyesContoursArea, Call.update]
        (sampleAnalyzer ℝ 640 480 100 0 0) = some s1 ∧
      s1.eye_right_contour_ = [] ∧ s1.eye_left_contour_ = []) ∧
    (∃ s1, GenerateEyeContours sampleTables
        (Helpers.ofDistance
          (fun x1 y1 x2 y2 : ℝ => Real.sqrt ((x1 - x2) ^ 2 + (y1 - y2) ^ 2)))
        (sampleAnalyzer ℝ 640 480 100 0 0) = some s1 ∧
      s1.eye_right_contour_.length = 16 ∧ s1.eye_left_contour_.length = 16) :=
  ⟨sampleTables_valid, sampleLandmarks_length ℝ, rfl, rfl,
    (contour_buffers_stay_empty sampleTables
        (Helpers.ofDistance
          (fun x1 y1 x2 y2 : ℝ => Real.sqrt ((x1 - x2) ^ 2 + (y1 - y2) ^ 2)))
      sampleTables_valid).2.2.1 _ _ (sampleLandmarks_length ℝ) rfl rfl,
    (contour_buffers_stay_empty sampleTables
        (Helpers.ofDistance
          (fun x1 y1 x2 y2 : ℝ => Real.sqrt ((x1 - x2) ^ 2 + (y1 - y2) ^ 2)))
      sampleTables_valid).2.2.2 _ (sampleLandmarks_length ℝ) rfl rfl⟩

end ReadMinds
